import Mathlib

/-!
Verification of the `StrictSHA1Manager` example of gin-contrib-signedauth
(`example/mgr.go`): a shallow embedding of `CheckHeader` and `Authorize`,
together with proofs of the specified properties.

Bytes are modelled as `Nat` values (< 256), machine words as `Nat` reduced
modulo `2^32`, instants and durations as unbounded `Int` nanoseconds (the
comparisons performed by the code are unaffected by Go's saturating
`Duration` arithmetic, since saturation only occurs far beyond the
15-minute threshold on either side).
-/

/-! ## MD5 (RFC 1321), as used by `crypto/md5` + `encoding/hex` -/

def two32 : Nat := 4294967296

def mask32 : Nat := 4294967295

/-- Left rotation by `s` of a 32-bit word `x < 2^32`. -/
def rotl32 (x s : Nat) : Nat :=
  ((x <<< s) % two32) ||| (x >>> (32 - s))

/-- The 64 additive constants `K[i] = floor(2^32 * |sin(i+1)|)`. -/
def md5K : List Nat :=
  [0xd76aa478, 0xe8c7b756, 0x242070db, 0xc1bdceee,
   0xf57c0faf, 0x4787c62a, 0xa8304613, 0xfd469501,
   0x698098d8, 0x8b44f7af, 0xffff5bb1, 0x895cd7be,
   0x6b901122, 0xfd987193, 0xa679438e, 0x49b40821,
   0xf61e2562, 0xc040b340, 0x265e5a51, 0xe9b6c7aa,
   0xd62f105d, 0x02441453, 0xd8a1e681, 0xe7d3fbc8,
   0x21e1cde6, 0xc33707d6, 0xf4d50d87, 0x455a14ed,
   0xa9e3e905, 0xfcefa3f8, 0x676f02d9, 0x8d2a4c8a,
   0xfffa3942, 0x8771f681, 0x6d9d6122, 0xfde5380c,
   0xa4beea44, 0x4bdecfa9, 0xf6bb4b60, 0xbebfbc70,
   0x289b7ec6, 0xeaa127fa, 0xd4ef3085, 0x04881d05,
   0xd9d4d039, 0xe6db99e5, 0x1fa27cf8, 0xc4ac5665,
   0xf4292244, 0x432aff97, 0xab9423a7, 0xfc93a039,
   0x655b59c3, 0x8f0ccc92, 0xffeff47d, 0x85845dd1,
   0x6fa87e4f, 0xfe2ce6e0, 0xa3014314, 0x4e0811a1,
   0xf7537e82, 0xbd3af235, 0x2ad7d2bb, 0xeb86d391]

/-- The 64 per-round shift amounts. -/
def md5S : List Nat :=
  [7, 12, 17, 22, 7, 12, 17, 22, 7, 12, 17, 22, 7, 12, 17, 22,
   5, 9, 14, 20, 5, 9, 14, 20, 5, 9, 14, 20, 5, 9, 14, 20,
   4, 11, 16, 23, 4, 11, 16, 23, 4, 11, 16, 23, 4, 11, 16, 23,
   6, 10, 15, 21, 6, 10, 15, 21, 6, 10, 15, 21, 6, 10, 15, 21]

/-- Round function: F, G, H or I depending on the round index. -/
def md5F (i b c d : Nat) : Nat :=
  if i < 16 then (b &&& c) ||| ((b ^^^ mask32) &&& d)
  else if i < 32 then (d &&& b) ||| ((d ^^^ mask32) &&& c)
  else if i < 48 then b ^^^ c ^^^ d
  else c ^^^ (b ||| (d ^^^ mask32))

/-- Message-word index used at round `i`. -/
def md5G (i : Nat) : Nat :=
  if i < 16 then i
  else if i < 32 then (5 * i + 1) % 16
  else if i < 48 then (3 * i + 5) % 16
  else (7 * i) % 16

/-- One of the 64 MD5 operations on the state `(a, b, c, d)`. -/
def md5Round (msg : List Nat) (st : Nat × Nat × Nat × Nat) (i : Nat) :
    Nat × Nat × Nat × Nat :=
  let (a, b, c, d) := st
  let tmp := (a + md5F i b c d + md5K.getD i 0 + msg.getD (md5G i) 0) % two32
  (d, (b + rotl32 tmp (md5S.getD i 0)) % two32, b, c)

/-- Recombine a byte list into 32-bit little-endian words. -/
def toWordsLE : List Nat → List Nat
  | b0 :: b1 :: b2 :: b3 :: rest =>
      (b0 + b1 * 256 + b2 * 65536 + b3 * 16777216) :: toWordsLE rest
  | _ => []

/-- The `k` little-endian bytes of `n`. -/
def natToBytesLE : Nat → Nat → List Nat
  | _, 0 => []
  | n, k + 1 => (n % 256) :: natToBytesLE (n / 256) k

/-- MD5 padding: a `0x80` byte, zeros to 56 mod 64, then the bit length
as 8 little-endian bytes. -/
def md5Pad (msg : List Nat) : List Nat :=
  let zeros := (119 - msg.length % 64) % 64
  msg ++ [0x80] ++ List.replicate zeros 0 ++
    natToBytesLE ((msg.length * 8) % 18446744073709551616) 8

/-- Split a byte list into 64-byte blocks (structural recursion on a fuel
bound, so that the definition reduces in the kernel). -/
def chunks64Aux : Nat → List Nat → List (List Nat)
  | 0, _ => []
  | _, [] => []
  | fuel + 1, l => l.take 64 :: chunks64Aux fuel (l.drop 64)

/-- Split a byte list into 64-byte blocks. -/
def chunks64 (l : List Nat) : List (List Nat) :=
  chunks64Aux l.length l

/-- Compression of one 64-byte block into the running state. -/
def md5Compress (st : Nat × Nat × Nat × Nat) (block : List Nat) :
    Nat × Nat × Nat × Nat :=
  let msg := toWordsLE block
  let (a, b, c, d) := st
  let (a1, b1, c1, d1) := (List.range 64).foldl (md5Round msg) st
  ((a + a1) % two32, (b + b1) % two32, (c + c1) % two32, (d + d1) % two32)

/-- MD5 digest of a byte sequence, as 16 bytes. -/
def md5Bytes (msg : List Nat) : List Nat :=
  let st := (chunks64 (md5Pad msg)).foldl md5Compress
    (0x67452301, 0xefcdab89, 0x98badcfe, 0x10325476)
  natToBytesLE st.1 4 ++ natToBytesLE st.2.1 4 ++
    natToBytesLE st.2.2.1 4 ++ natToBytesLE st.2.2.2 4

/-- Lowercase hex digit, as produced by `encoding/hex`. -/
def hexDigit (n : Nat) : Char :=
  if n < 10 then Char.ofNat (48 + n) else Char.ofNat (87 + n)

/-- Two lowercase hex characters of a byte. -/
def byteToHex (b : Nat) : String :=
  String.mk [hexDigit (b / 16), hexDigit (b % 16)]

/-- Go's `hex.EncodeToString` on a byte sequence. -/
def hexEncode (bs : List Nat) : String :=
  String.join (bs.map byteToHex)

/-- Hex-encoded MD5 digest of a byte sequence. -/
def md5Hex (msg : List Nat) : String :=
  hexEncode (md5Bytes msg)

example : md5Hex [] = "d41d8cd98f00b204e9800998ecf8427e" := by decide

example : md5Hex [97, 98, 99] = "900150983cd24fb0d6963f7d28e17f72" := by decide

/-! ## `time.Parse("2006-01-02T15:04:05.000Z", s)`

The layout fixes: 4-digit year, literal `-`, 2-digit month, literal `-`,
2-digit day, literal `T`, 1-or-2-digit hour (Go's `15` chunk parses one or
two digits), literal `:`, 2-digit minute, literal `:`, 2-digit second,
a literal `.` followed by exactly 3 fraction digits, a literal `Z`, and
end of input.  Go then range-checks month (1..12), day (1..days-in-month,
leap years included), hour (< 24), minute (< 60) and second (< 60).
The parsed time carries no zone, hence UTC. -/

structure DateTime where
  year : Nat
  month : Nat
  day : Nat
  hour : Nat
  minute : Nat
  second : Nat
  millis : Nat
deriving DecidableEq

/-- The parser works on Unicode code points (as `Nat`), obtained from the
header string by one `Char.toNat` map. -/
def isDigitCode (c : Nat) : Bool :=
  48 ≤ c && c ≤ 57

def digitVal (c : Nat) : Nat :=
  c - 48

/-- Exactly two digits (Go's `getnum` with `fixed = true`). -/
def parse2 : List Nat → Option (Nat × List Nat)
  | c1 :: c2 :: rest =>
      if isDigitCode c1 && isDigitCode c2 then
        some (digitVal c1 * 10 + digitVal c2, rest)
      else none
  | _ => none

/-- One or two digits (Go's `getnum` with `fixed = false`, used for `15`). -/
def parseNum12 : List Nat → Option (Nat × List Nat)
  | c1 :: c2 :: rest =>
      if isDigitCode c1 then
        if isDigitCode c2 then some (digitVal c1 * 10 + digitVal c2, rest)
        else some (digitVal c1, c2 :: rest)
      else none
  | [c1] => if isDigitCode c1 then some (digitVal c1, []) else none
  | [] => none

/-- Exactly four digits (Go's `stdLongYear`). -/
def parse4 : List Nat → Option (Nat × List Nat)
  | c1 :: c2 :: c3 :: c4 :: rest =>
      if isDigitCode c1 && isDigitCode c2 && isDigitCode c3 && isDigitCode c4 then
        some (digitVal c1 * 1000 + digitVal c2 * 100 + digitVal c3 * 10 +
          digitVal c4, rest)
      else none
  | _ => none

/-- Exactly three digits (the `.000` fraction, after its dot). -/
def parse3 : List Nat → Option (Nat × List Nat)
  | c1 :: c2 :: c3 :: rest =>
      if isDigitCode c1 && isDigitCode c2 && isDigitCode c3 then
        some (digitVal c1 * 100 + digitVal c2 * 10 + digitVal c3, rest)
      else none
  | _ => none

/-- A required literal character of the layout, by code point. -/
def expectCode (c : Nat) : List Nat → Option (List Nat)
  | c1 :: rest => if c1 = c then some rest else none
  | [] => none

def isLeapYear (y : Nat) : Bool :=
  y % 4 = 0 && (y % 100 ≠ 0 || y % 400 = 0)

/-- Days in a month, as Go's `daysIn`. -/
def daysIn (m y : Nat) : Nat :=
  if m = 2 then (if isLeapYear y then 29 else 28)
  else [31, 0, 31, 30, 31, 30, 31, 31, 30, 31, 30, 31].getD (m - 1) 0

/-- The `2006-01-02` part of the layout: year, `-`, month, `-`, day. -/
def parseYMD (l : List Nat) : Option (Nat × Nat × Nat × List Nat) :=
  match parse4 l with
  | none => none
  | some py =>
  match expectCode 45 py.2 with
  | none => none
  | some l1 =>
  match parse2 l1 with
  | none => none
  | some pmo =>
  match expectCode 45 pmo.2 with
  | none => none
  | some l2 =>
  match parse2 l2 with
  | none => none
  | some pd => some (py.1, pmo.1, pd.1, pd.2)

/-- The `T15:04:05` part of the layout. -/
def parseTHMS (l : List Nat) : Option (Nat × Nat × Nat × List Nat) :=
  match expectCode 84 l with
  | none => none
  | some l3 =>
  match parseNum12 l3 with
  | none => none
  | some ph =>
  match expectCode 58 ph.2 with
  | none => none
  | some l4 =>
  match parse2 l4 with
  | none => none
  | some pmi =>
  match expectCode 58 pmi.2 with
  | none => none
  | some l5 =>
  match parse2 l5 with
  | none => none
  | some ps => some (ph.1, pmi.1, ps.1, ps.2)

/-- The `.000Z` tail of the layout, which must end the input. -/
def parseFracZEnd (l : List Nat) : Option Nat :=
  match expectCode 46 l with
  | none => none
  | some l6 =>
  match parse3 l6 with
  | none => none
  | some pms =>
  match expectCode 90 pms.2 with
  | none => none
  | some l7 => if l7.isEmpty then some pms.1 else none

/-- Go's range checks after the layout has matched. -/
def rangesOk (y mo d h mi s : Nat) : Bool :=
  !(mo < 1 || 12 < mo) && !(24 ≤ h) && !(60 ≤ mi) && !(60 ≤ s) &&
    !(d < 1 || daysIn mo y < d)

def parseDateCodes (l : List Nat) : Option DateTime :=
  match parseYMD l with
  | none => none
  | some ymd =>
  match parseTHMS ymd.2.2.2 with
  | none => none
  | some hms =>
  match parseFracZEnd hms.2.2.2 with
  | none => none
  | some ms =>
    if rangesOk ymd.1 ymd.2.1 ymd.2.2.1 hms.1 hms.2.1 hms.2.2.1 then
      some ⟨ymd.1, ymd.2.1, ymd.2.2.1, hms.1, hms.2.1, hms.2.2.1, ms⟩
    else none

/-- Go's `time.Parse` of the fixed layout, `none` on any parse error. -/
def parseDate (s : String) : Option DateTime :=
  parseDateCodes (s.data.map Char.toNat)

/-- Day count since 1970-01-01 of a civil date (proleptic Gregorian), the
instant Go assigns to the parsed UTC date. -/
def daysFromCivil (y m d : Int) : Int :=
  let y' := if m ≤ 2 then y - 1 else y
  let era := (if 0 ≤ y' then y' else y' - 399) / 400
  let yoe := y' - era * 400
  let doy := (153 * (if 2 < m then m - 3 else m + 9) + 2) / 5 + d - 1
  let doe := yoe * 365 + yoe / 4 - yoe / 100 + doy
  era * 146097 + doe - 719468

/-- Nanoseconds since the Unix epoch of a parsed timestamp. -/
def toNs (dt : DateTime) : Int :=
  (daysFromCivil dt.year dt.month dt.day * 86400 +
    (dt.hour : Int) * 3600 + (dt.minute : Int) * 60 + (dt.second : Int)) *
    1000000000 + (dt.millis : Int) * 1000000

/-- Go's `time.Minute * 15` in nanoseconds. -/
def fifteenMinutesNs : Int := 900000000000

example : parseDate "2024-01-01T00:00:00.000Z" =
    some ⟨2024, 1, 1, 0, 0, 0, 0⟩ := by decide

example : parseDate "2024-02-30T00:00:00.000Z" = none := by decide

example : parseDate "2024-01-01T00:00:00Z" = none := by decide

example : parseDate "" = none := by decide

example : toNs ⟨1970, 1, 1, 0, 0, 0, 0⟩ = 0 := by decide

example : toNs ⟨2024, 1, 1, 0, 0, 0, 0⟩ = 1704067200000000000 := by decide

/-! ## The request model and `StrictSHA1Manager`

`http.Request` is modelled by the fields `CheckHeader` reads — method,
content length (an `Int`: Go's `ContentLength` is an `int64` that may be
negative), body, and the value of `Header.Get("Date")` (the empty string
when the header is absent, as in Go) — plus fields it does not read
(URL, host, remaining headers), kept so that independence from them is a
meaningful statement.  The body is absent (`req.Body == nil`), unreadable
(`ioutil.ReadAll` errors), or a byte sequence. -/

inductive Body where
  | absent : Body
  | unreadable : Body
  | bytes : List Nat → Body
deriving DecidableEq

structure Request where
  method : String
  contentLength : Int
  body : Body
  dateHeader : String
  url : String
  host : String
  otherHeaders : List (String × String)
deriving DecidableEq

/-- The `signedauth.AuthErr` pair: an HTTP status and an error message. -/
structure AuthErr where
  status : Nat
  message : String
deriving DecidableEq

/-- The manager; only its `Secret` field is read by `CheckHeader` (the
embedded `*signedauth.HMACManager` is not consulted by either method). -/
structure StrictSHA1Manager where
  Secret : String
deriving DecidableEq

/-- Go's `StrictSHA1Manager.CheckHeader`, with the verifier's current instant
`now` (in nanoseconds) made explicit: `time.Since(date) > 15 * time.Minute`
becomes `fifteenMinutesNs < now - toNs date`. -/
def checkHeader (m : StrictSHA1Manager) (access : String) (req : Request)
    (now : Int) : String × String × Option AuthErr :=
  if req.contentLength ≠ 0 ∧ req.body = Body.absent then
    ("", "", some ⟨400, "received a forged packet"⟩)
  else if req.dateHeader = "" then
    ("", "", some ⟨406, "no Date header provided"⟩)
  else
    match parseDate req.dateHeader with
    | none => ("", "", some ⟨408, "could not parse date"⟩)
    | some date =>
      if fifteenMinutesNs < now - toNs date then
        ("", "", some ⟨410, "request is too old"⟩)
      else if access = "my_access_key" then
        if req.contentLength ≠ 0 then
          match req.body with
          | Body.bytes data =>
              (m.Secret,
               req.method ++ "\n" ++ md5Hex data ++ "\n" ++ req.dateHeader,
               none)
          | _ =>
              -- `ioutil.ReadAll(req.Body)` fails; `Body.absent` cannot in
              -- fact reach this arm (the first check rules it out).
              ("", "", some ⟨402, "could not read the body"⟩)
        else
          (m.Secret, req.method ++ "\n" ++ "\n" ++ req.dateHeader, none)
      else
        ("", "", some ⟨418, "you are a teapot"⟩)

/-- Go's `StrictSHA1Manager.Authorize`. -/
def authorize (_m : StrictSHA1Manager) (access : String) : String :=
  if access = "my_access_key" then "All good with my access key!"
  else "All good with any access key!"

/-- The body-digest component of the signing string: the hex-encoded MD5
digest of the body bytes, empty when there are none to hash. -/
def digestOfBody : Body → String
  | Body.bytes data => md5Hex data
  | _ => ""

/-! ## Concrete fixtures used by witnesses and counterexamples -/

def myKey : String := "my_access_key"

def otherKey : String := "not_my_key"

def goodDate : String := "2024-06-01T12:00:00.000Z"

def goodDateDT : DateTime := ⟨2024, 6, 1, 12, 0, 0, 0⟩

/-- A "current time" one minute after `goodDate`. -/
def nowW : Int := toNs goodDateDT + 60000000000

def mgrW : StrictSHA1Manager := ⟨"s3cret"⟩

/-- A GET request without a body, carrying `goodDate`. -/
def reqGet : Request := ⟨"GET", 0, Body.absent, goodDate, "/endpoint", "example.com", []⟩

example : parseDate goodDate = some goodDateDT := by decide

/-! ## Branch characterization lemmas for `checkHeader` -/

lemma parseDate_empty : parseDate "" = none := by decide

lemma parseDate_ne_empty {s : String} {dt : DateTime}
    (h : parseDate s = some dt) : s ≠ "" := by
  intro h'
  rw [h', parseDate_empty] at h
  exact Option.noConfusion h

lemma checkHeader_forged (m : StrictSHA1Manager) (access : String)
    (req : Request) (now : Int)
    (h : req.contentLength ≠ 0 ∧ req.body = Body.absent) :
    checkHeader m access req now =
      ("", "", some ⟨400, "received a forged packet"⟩) := by
  unfold checkHeader
  rw [if_pos h]

lemma checkHeader_noDate (m : StrictSHA1Manager) (access : String)
    (req : Request) (now : Int)
    (hf : ¬(req.contentLength ≠ 0 ∧ req.body = Body.absent))
    (hd : req.dateHeader = "") :
    checkHeader m access req now =
      ("", "", some ⟨406, "no Date header provided"⟩) := by
  unfold checkHeader
  rw [if_neg hf, if_pos hd]

lemma checkHeader_badDate (m : StrictSHA1Manager) (access : String)
    (req : Request) (now : Int)
    (hf : ¬(req.contentLength ≠ 0 ∧ req.body = Body.absent))
    (hd : req.dateHeader ≠ "")
    (hp : parseDate req.dateHeader = none) :
    checkHeader m access req now =
      ("", "", some ⟨408, "could not parse date"⟩) := by
  unfold checkHeader
  rw [if_neg hf, if_neg hd, hp]

lemma checkHeader_stale (m : StrictSHA1Manager) (access : String)
    (req : Request) (now : Int) (dt : DateTime)
    (hf : ¬(req.contentLength ≠ 0 ∧ req.body = Body.absent))
    (hp : parseDate req.dateHeader = some dt)
    (hs : fifteenMinutesNs < now - toNs dt) :
    checkHeader m access req now =
      ("", "", some ⟨410, "request is too old"⟩) := by
  unfold checkHeader
  rw [if_neg hf, if_neg (parseDate_ne_empty hp)]
  simp only [hp]
  rw [if_pos hs]

lemma checkHeader_teapot (m : StrictSHA1Manager) (access : String)
    (req : Request) (now : Int) (dt : DateTime)
    (hf : ¬(req.contentLength ≠ 0 ∧ req.body = Body.absent))
    (hp : parseDate req.dateHeader = some dt)
    (hs : now - toNs dt ≤ fifteenMinutesNs)
    (ha : access ≠ "my_access_key") :
    checkHeader m access req now =
      ("", "", some ⟨418, "you are a teapot"⟩) := by
  unfold checkHeader
  rw [if_neg hf, if_neg (parseDate_ne_empty hp)]
  simp only [hp]
  rw [if_neg (not_lt.mpr hs), if_neg ha]

/-! ## Claims -/

/-- C1: for every request with access key `my_access_key`, a Date header
that parses under the fixed format and is at most 15 minutes in the past,
and a readable body whenever `ContentLength` is non-zero, `CheckHeader`
returns no error, the manager's `Secret`, and the signing string
`method ++ "\n" ++ digest ++ "\n" ++ rawDate`, where the digest is the
hex-encoded MD5 of the raw body bytes if `ContentLength` is non-zero and
empty otherwise. -/
theorem checkHeader_valid_request (m : StrictSHA1Manager) (access : String)
    (req : Request) (now : Int) (dt : DateTime)
    (hacc : access = "my_access_key")
    (hp : parseDate req.dateHeader = some dt)
    (hfresh : now - toNs dt ≤ fifteenMinutesNs)
    (hbody : req.contentLength = 0 ∨ ∃ data, req.body = Body.bytes data) :
    checkHeader m access req now =
      (m.Secret,
       req.method ++ "\n" ++
         (if req.contentLength = 0 then "" else digestOfBody req.body) ++
         "\n" ++ req.dateHeader,
       none) := by
  have hf : ¬(req.contentLength ≠ 0 ∧ req.body = Body.absent) := by
    rcases hbody with h0 | ⟨data, hb⟩
    · rintro ⟨hcl, _⟩
      exact hcl h0
    · rintro ⟨_, habs⟩
      rw [hb] at habs
      exact Body.noConfusion habs
  unfold checkHeader
  rw [if_neg hf, if_neg (parseDate_ne_empty hp)]
  simp only [hp]
  rw [if_neg (not_lt.mpr hfresh), if_pos hacc]
  by_cases hcl : req.contentLength = 0
  · rw [if_neg (fun h => h hcl), if_pos hcl, String.append_empty]
  · rcases hbody with h0 | ⟨data, hb⟩
    · exact absurd h0 hcl
    · rw [if_pos hcl, if_neg hcl]
      simp only [hb, digestOfBody]

/-- Witness for C1 at a concrete GET request without a body. -/
theorem checkHeader_valid_request_witness :
    checkHeader mgrW myKey reqGet nowW =
      (mgrW.Secret,
       reqGet.method ++ "\n" ++
         (if reqGet.contentLength = 0 then "" else digestOfBody reqGet.body) ++
         "\n" ++ reqGet.dateHeader,
       none) :=
  checkHeader_valid_request mgrW myKey reqGet nowW goodDateDT rfl (by decide)
    (by decide) (Or.inl (by decide))

/-- C2: once the body-presence check has passed, the timestamp rules apply
in order — missing header gives status 406, unparseable header gives 408,
and a header more than 15 minutes in the past gives 410 — each a distinct
error, and each later rule is stated under the hypotheses that the earlier
ones passed. -/
theorem checkHeader_timestamp_rule_order (m : StrictSHA1Manager)
    (access : String) (req : Request) (now : Int)
    (hf : ¬(req.contentLength ≠ 0 ∧ req.body = Body.absent)) :
    (req.dateHeader = "" →
      checkHeader m access req now =
        ("", "", some ⟨406, "no Date header provided"⟩)) ∧
    (req.dateHeader ≠ "" → parseDate req.dateHeader = none →
      checkHeader m access req now =
        ("", "", some ⟨408, "could not parse date"⟩)) ∧
    (∀ dt, parseDate req.dateHeader = some dt →
      fifteenMinutesNs < now - toNs dt →
      checkHeader m access req now =
        ("", "", some ⟨410, "request is too old"⟩)) ∧
    ((⟨406, "no Date header provided"⟩ : AuthErr) ≠
        ⟨408, "could not parse date"⟩ ∧
      (⟨406, "no Date header provided"⟩ : AuthErr) ≠
        ⟨410, "request is too old"⟩ ∧
      (⟨408, "could not parse date"⟩ : AuthErr) ≠
        ⟨410, "request is too old"⟩) :=
  ⟨fun hd => checkHeader_noDate m access req now hf hd,
    fun hd hp => checkHeader_badDate m access req now hf hd hp,
    fun dt hp hs => checkHeader_stale m access req now dt hf hp hs,
    by decide, by decide, by decide⟩

/-- A request with no Date header at all. -/
def reqNoDate : Request :=
  ⟨"GET", 0, Body.absent, "", "/endpoint", "example.com", []⟩

/-- Witness for C2: the missing-header rule fires on a concrete request. -/
theorem checkHeader_timestamp_rule_order_witness :
    checkHeader mgrW myKey reqNoDate nowW =
      ("", "", some ⟨406, "no Date header provided"⟩) :=
  (checkHeader_timestamp_rule_order mgrW myKey reqNoDate nowW (by decide)).1
    rfl

/-- C3: a request whose parsed timestamp is at or after the verifier's
current time is never rejected by the staleness rule — only positive
elapsed time is compared against the 15-minute tolerance. -/
theorem checkHeader_accepts_future_date (m : StrictSHA1Manager)
    (access : String) (req : Request) (now : Int) (dt : DateTime)
    (hp : parseDate req.dateHeader = some dt)
    (hfut : now ≤ toNs dt) :
    (checkHeader m access req now).2.2 ≠ some ⟨410, "request is too old"⟩ := by
  have hs : ¬ fifteenMinutesNs < now - toNs dt := by
    unfold fifteenMinutesNs
    omega
  by_cases hfo : (req.contentLength ≠ 0 ∧ req.body = Body.absent)
  · rw [checkHeader_forged m access req now hfo]
    simp
  · unfold checkHeader
    rw [if_neg hfo, if_neg (parseDate_ne_empty hp)]
    simp only [hp]
    rw [if_neg hs]
    by_cases ha : access = "my_access_key"
    · rw [if_pos ha]
      by_cases hcl : req.contentLength ≠ 0
      · rw [if_pos hcl]
        cases req.body <;> simp
      · rw [if_neg hcl]
        simp
    · rw [if_neg ha]
      simp

/-- A "current time" one second before `goodDate` (future-dated header). -/
def nowEarly : Int := toNs goodDateDT - 1000000000

/-- Witness for C3 at a concrete future-dated request. -/
theorem checkHeader_accepts_future_date_witness :
    (checkHeader mgrW myKey reqGet nowEarly).2.2 ≠
      some ⟨410, "request is too old"⟩ :=
  checkHeader_accepts_future_date mgrW myKey reqGet nowEarly goodDateDT
    (by decide) (by decide)

lemma checkHeader_success_nobody (m : StrictSHA1Manager) (access : String)
    (req : Request) (now : Int) (dt : DateTime)
    (hf : ¬(req.contentLength ≠ 0 ∧ req.body = Body.absent))
    (hp : parseDate req.dateHeader = some dt)
    (hfresh : now - toNs dt ≤ fifteenMinutesNs)
    (ha : access = "my_access_key")
    (hcl : req.contentLength = 0) :
    checkHeader m access req now =
      (m.Secret, req.method ++ "\n" ++ "\n" ++ req.dateHeader, none) := by
  unfold checkHeader
  rw [if_neg hf, if_neg (parseDate_ne_empty hp)]
  simp only [hp]
  rw [if_neg (not_lt.mpr hfresh), if_pos ha, if_neg (fun h => h hcl)]

lemma checkHeader_success_body (m : StrictSHA1Manager) (access : String)
    (req : Request) (now : Int) (dt : DateTime) (data : List Nat)
    (hf : ¬(req.contentLength ≠ 0 ∧ req.body = Body.absent))
    (hp : parseDate req.dateHeader = some dt)
    (hfresh : now - toNs dt ≤ fifteenMinutesNs)
    (ha : access = "my_access_key")
    (hcl : req.contentLength ≠ 0)
    (hb : req.body = Body.bytes data) :
    checkHeader m access req now =
      (m.Secret,
       req.method ++ "\n" ++ md5Hex data ++ "\n" ++ req.dateHeader,
       none) := by
  unfold checkHeader
  rw [if_neg hf, if_neg (parseDate_ne_empty hp)]
  simp only [hp]
  rw [if_neg (not_lt.mpr hfresh), if_pos ha, if_pos hcl]
  simp only [hb]

lemma checkHeader_unreadableBody (m : StrictSHA1Manager) (access : String)
    (req : Request) (now : Int) (dt : DateTime)
    (hf : ¬(req.contentLength ≠ 0 ∧ req.body = Body.absent))
    (hp : parseDate req.dateHeader = some dt)
    (hfresh : now - toNs dt ≤ fifteenMinutesNs)
    (ha : access = "my_access_key")
    (hcl : req.contentLength ≠ 0)
    (hb : req.body = Body.unreadable) :
    checkHeader m access req now =
      ("", "", some ⟨402, "could not read the body"⟩) := by
  unfold checkHeader
  rw [if_neg hf, if_neg (parseDate_ne_empty hp)]
  simp only [hp]
  rw [if_neg (not_lt.mpr hfresh), if_pos ha, if_pos hcl]
  simp only [hb]

/-- Shape: `checkHeader` either fails with empty secret and signing string, or
succeeds with the manager's secret. -/
lemma checkHeader_shape (m : StrictSHA1Manager) (access : String)
    (req : Request) (now : Int) :
    (∃ e, checkHeader m access req now = ("", "", some e)) ∨
    ∃ s, checkHeader m access req now = (m.Secret, s, none) := by
  by_cases hfo : (req.contentLength ≠ 0 ∧ req.body = Body.absent)
  · exact Or.inl ⟨_, checkHeader_forged m access req now hfo⟩
  by_cases hd : req.dateHeader = ""
  · exact Or.inl ⟨_, checkHeader_noDate m access req now hfo hd⟩
  cases hp : parseDate req.dateHeader with
  | none => exact Or.inl ⟨_, checkHeader_badDate m access req now hfo hd hp⟩
  | some dt =>
    by_cases hs : fifteenMinutesNs < now - toNs dt
    · exact Or.inl ⟨_, checkHeader_stale m access req now dt hfo hp hs⟩
    have hfresh : now - toNs dt ≤ fifteenMinutesNs := not_lt.mp hs
    by_cases ha : access = "my_access_key"
    · by_cases hcl : req.contentLength ≠ 0
      · cases hb : req.body with
        | absent => exact absurd ⟨hcl, hb⟩ hfo
        | unreadable =>
            exact Or.inl
              ⟨_, checkHeader_unreadableBody m access req now dt hfo hp hfresh
                ha hcl hb⟩
        | bytes data =>
            exact Or.inr
              ⟨_, checkHeader_success_body m access req now dt data hfo hp
                hfresh ha hcl hb⟩
      · exact Or.inr
          ⟨_, checkHeader_success_nobody m access req now dt hfo hp hfresh ha
            (of_not_not hcl)⟩
    · exact Or.inl ⟨_, checkHeader_teapot m access req now dt hfo hp hfresh ha⟩

/-- The error component of `checkHeader` does not depend on the manager's
`Secret`. -/
lemma checkHeader_err_secret_irrelevant (s1 s2 access : String)
    (req : Request) (now : Int) :
    (checkHeader ⟨s1⟩ access req now).2.2 =
    (checkHeader ⟨s2⟩ access req now).2.2 := by
  by_cases hfo : (req.contentLength ≠ 0 ∧ req.body = Body.absent)
  · rw [checkHeader_forged ⟨s1⟩ access req now hfo,
      checkHeader_forged ⟨s2⟩ access req now hfo]
  by_cases hd : req.dateHeader = ""
  · rw [checkHeader_noDate ⟨s1⟩ access req now hfo hd,
      checkHeader_noDate ⟨s2⟩ access req now hfo hd]
  cases hp : parseDate req.dateHeader with
  | none =>
      rw [checkHeader_badDate ⟨s1⟩ access req now hfo hd hp,
        checkHeader_badDate ⟨s2⟩ access req now hfo hd hp]
  | some dt =>
    by_cases hs : fifteenMinutesNs < now - toNs dt
    · rw [checkHeader_stale ⟨s1⟩ access req now dt hfo hp hs,
        checkHeader_stale ⟨s2⟩ access req now dt hfo hp hs]
    have hfresh : now - toNs dt ≤ fifteenMinutesNs := not_lt.mp hs
    by_cases ha : access = "my_access_key"
    · by_cases hcl : req.contentLength ≠ 0
      · cases hb : req.body with
        | absent => exact absurd ⟨hcl, hb⟩ hfo
        | unreadable =>
            rw [checkHeader_unreadableBody ⟨s1⟩ access req now dt hfo hp
                hfresh ha hcl hb,
              checkHeader_unreadableBody ⟨s2⟩ access req now dt hfo hp hfresh
                ha hcl hb]
        | bytes data =>
            rw [checkHeader_success_body ⟨s1⟩ access req now dt data hfo hp
                hfresh ha hcl hb,
              checkHeader_success_body ⟨s2⟩ access req now dt data hfo hp
                hfresh ha hcl hb]
      · rw [checkHeader_success_nobody ⟨s1⟩ access req now dt hfo hp hfresh
            ha (of_not_not hcl),
          checkHeader_success_nobody ⟨s2⟩ access req now dt hfo hp hfresh ha
            (of_not_not hcl)]
    · rw [checkHeader_teapot ⟨s1⟩ access req now dt hfo hp hfresh ha,
        checkHeader_teapot ⟨s2⟩ access req now dt hfo hp hfresh ha]

/-- C4 (amended): for a request declaring a positive content length, an
absent body always fails with the malformed-request error 400 (before any
other check, for every access key); an unreadable body fails with the
malformed-request error 402 only after the timestamp checks have passed
and only for the known access key — for other access keys the unknown-key
error fires first (see the counterexample). -/
theorem checkHeader_body_errors (m : StrictSHA1Manager) (access : String)
    (req : Request) (now : Int)
    (hcl : 0 < req.contentLength) :
    (req.body = Body.absent →
      checkHeader m access req now =
        ("", "", some ⟨400, "received a forged packet"⟩)) ∧
    (req.body = Body.unreadable → ∀ dt, parseDate req.dateHeader = some dt →
      now - toNs dt ≤ fifteenMinutesNs → access = "my_access_key" →
      checkHeader m access req now =
        ("", "", some ⟨402, "could not read the body"⟩)) := by
  constructor
  · intro habs
    exact checkHeader_forged m access req now ⟨ne_of_gt hcl, habs⟩
  · intro hu dt hp hfresh hacc
    have hf : ¬(req.contentLength ≠ 0 ∧ req.body = Body.absent) := by
      rintro ⟨_, habs⟩
      rw [hu] at habs
      exact Body.noConfusion habs
    exact checkHeader_unreadableBody m access req now dt hf hp hfresh hacc
      (ne_of_gt hcl) hu

/-- A PUT request declaring 5 body bytes whose body read fails. -/
def reqUnreadable : Request :=
  ⟨"PUT", 5, Body.unreadable, goodDate, "/upload", "example.com", []⟩

/-- A PUT request declaring 5 body bytes with a nil body. -/
def reqAbsentBody : Request :=
  ⟨"PUT", 5, Body.absent, goodDate, "/upload", "example.com", []⟩

/-- Counterexample to C4 as stated: a request with positive content length
and an unreadable body, presented with an access key other than
`my_access_key`, fails with the unknown-key error 418 — not with a
malformed-request error 400 or 402. -/
theorem checkHeader_body_errors_cex :
    checkHeader mgrW otherKey reqUnreadable nowW =
      ("", "", some ⟨418, "you are a teapot"⟩) ∧
    (0 : Int) < reqUnreadable.contentLength ∧
    reqUnreadable.body = Body.unreadable ∧
    (418 : Nat) ≠ 400 ∧ (418 : Nat) ≠ 402 :=
  ⟨by decide, by decide, by decide, by decide, by decide⟩

/-- Witness for C4 (amended): the 400 error on an absent body and the 402
error on an unreadable body, at concrete requests. -/
theorem checkHeader_body_errors_witness :
    checkHeader mgrW myKey reqAbsentBody nowW =
      ("", "", some ⟨400, "received a forged packet"⟩) ∧
    checkHeader mgrW myKey reqUnreadable nowW =
      ("", "", some ⟨402, "could not read the body"⟩) :=
  ⟨(checkHeader_body_errors mgrW myKey reqAbsentBody nowW (by decide)).1
      (by decide),
    (checkHeader_body_errors mgrW myKey reqUnreadable nowW (by decide)).2
      (by decide) goodDateDT (by decide) (by decide) rfl⟩

/-- A request fails a structural check when the body is declared but
absent, the Date header is missing, unparseable, or stale. -/
def structuralFailure (req : Request) (now : Int) : Prop :=
  (req.contentLength ≠ 0 ∧ req.body = Body.absent) ∨
  req.dateHeader = "" ∨
  parseDate req.dateHeader = none ∨
  (∃ dt, parseDate req.dateHeader = some dt ∧
    fifteenMinutesNs < now - toNs dt)

/-- C5: on every request that fails a structural check, `CheckHeader`
returns the same result for every access key — the key is never consulted
before the structural checks have all passed. -/
theorem checkHeader_structural_access_independent (m : StrictSHA1Manager)
    (req : Request) (now : Int) (a1 a2 : String)
    (hfail : structuralFailure req now) :
    checkHeader m a1 req now = checkHeader m a2 req now := by
  by_cases hfo : (req.contentLength ≠ 0 ∧ req.body = Body.absent)
  · rw [checkHeader_forged m a1 req now hfo,
      checkHeader_forged m a2 req now hfo]
  by_cases hd : req.dateHeader = ""
  · rw [checkHeader_noDate m a1 req now hfo hd,
      checkHeader_noDate m a2 req now hfo hd]
  cases hp : parseDate req.dateHeader with
  | none =>
      rw [checkHeader_badDate m a1 req now hfo hd hp,
        checkHeader_badDate m a2 req now hfo hd hp]
  | some dt =>
    have hs : fifteenMinutesNs < now - toNs dt := by
      rcases hfail with h | h | h | ⟨dt', hp', hs'⟩
      · exact absurd h hfo
      · exact absurd h hd
      · rw [hp] at h
        exact Option.noConfusion h
      · rw [hp] at hp'
        obtain rfl := Option.some.inj hp'
        exact hs'
    rw [checkHeader_stale m a1 req now dt hfo hp hs,
      checkHeader_stale m a2 req now dt hfo hp hs]

/-- Witness for C5: a request with no Date header is answered identically
under two different access keys. -/
theorem checkHeader_structural_access_independent_witness :
    checkHeader mgrW myKey reqNoDate nowW =
      checkHeader mgrW otherKey reqNoDate nowW :=
  checkHeader_structural_access_independent mgrW reqNoDate nowW myKey
    otherKey (Or.inr (Or.inl (by decide)))

/-- C6: a request that passes every structural check but presents an
access key other than `my_access_key` gets the unknown-key error 418 with
empty secret and signing string; and the result does not depend on the
body bytes at all — the digest step is never reached for such a request. -/
theorem checkHeader_unknown_key (m : StrictSHA1Manager) (access : String)
    (req : Request) (now : Int) (dt : DateTime)
    (hf : ¬(req.contentLength ≠ 0 ∧ req.body = Body.absent))
    (hp : parseDate req.dateHeader = some dt)
    (hfresh : now - toNs dt ≤ fifteenMinutesNs)
    (ha : access ≠ "my_access_key") :
    checkHeader m access req now =
      ("", "", some ⟨418, "you are a teapot"⟩) ∧
    (∀ data1 data2 : List Nat,
      checkHeader m access { req with body := Body.bytes data1 } now =
        checkHeader m access { req with body := Body.bytes data2 } now) := by
  constructor
  · exact checkHeader_teapot m access req now dt hf hp hfresh ha
  · intro d1 d2
    have h1 : checkHeader m access { req with body := Body.bytes d1 } now =
        ("", "", some ⟨418, "you are a teapot"⟩) :=
      checkHeader_teapot m access _ now dt
        (by rintro ⟨_, habs⟩; exact Body.noConfusion habs) hp hfresh ha
    have h2 : checkHeader m access { req with body := Body.bytes d2 } now =
        ("", "", some ⟨418, "you are a teapot"⟩) :=
      checkHeader_teapot m access _ now dt
        (by rintro ⟨_, habs⟩; exact Body.noConfusion habs) hp hfresh ha
    rw [h1, h2]

/-- Witness for C6 at a concrete bodyless GET with a wrong access key. -/
theorem checkHeader_unknown_key_witness :
    checkHeader mgrW otherKey reqGet nowW =
      ("", "", some ⟨418, "you are a teapot"⟩) :=
  (checkHeader_unknown_key mgrW otherKey reqGet nowW goodDateDT (by decide)
    (by decide) (by decide) (by decide)).1

/-- C7: whenever `CheckHeader` returns an error, the returned secret and
signing string are both empty; and the error component is independent of
the manager's `Secret` field, so no error carries the secret. -/
theorem checkHeader_error_carries_no_secret (m : StrictSHA1Manager)
    (access : String) (req : Request) (now : Int) :
    (∀ e, (checkHeader m access req now).2.2 = some e →
      (checkHeader m access req now).1 = "" ∧
        (checkHeader m access req now).2.1 = "") ∧
    (∀ s1 s2 : String,
      (checkHeader ⟨s1⟩ access req now).2.2 =
        (checkHeader ⟨s2⟩ access req now).2.2) := by
  constructor
  · intro e he
    rcases checkHeader_shape m access req now with ⟨e', hE⟩ | ⟨s, hS⟩
    · rw [hE]
      exact ⟨rfl, rfl⟩
    · rw [hS] at he
      exact Option.noConfusion he
  · intro s1 s2
    exact checkHeader_err_secret_irrelevant s1 s2 access req now

/-- Witness for C7 at a concrete rejected request, under two managers
with different secrets. -/
theorem checkHeader_error_carries_no_secret_witness :
    ((checkHeader mgrW otherKey reqGet nowW).1 = "" ∧
      (checkHeader mgrW otherKey reqGet nowW).2.1 = "") ∧
    (checkHeader ⟨myKey⟩ otherKey reqGet nowW).2.2 =
      (checkHeader ⟨otherKey⟩ otherKey reqGet nowW).2.2 :=
  ⟨(checkHeader_error_carries_no_secret mgrW otherKey reqGet nowW).1
      ⟨418, "you are a teapot"⟩ (by decide),
    (checkHeader_error_carries_no_secret mgrW otherKey reqGet nowW).2 myKey
      otherKey⟩

/-- C8: `CheckHeader` is a function of the method, body, content length
and Date header only — two requests agreeing on those four fields (but
possibly differing in URL, host, or other headers) get identical
(secret, signing string, error) results under the same manager, access
key and current time. -/
theorem checkHeader_deterministic (m : StrictSHA1Manager) (access : String)
    (now : Int) (req1 req2 : Request)
    (hm : req1.method = req2.method)
    (hb : req1.body = req2.body)
    (hcl : req1.contentLength = req2.contentLength)
    (hd : req1.dateHeader = req2.dateHeader) :
    checkHeader m access req1 now = checkHeader m access req2 now := by
  unfold checkHeader
  rw [hm, hb, hcl, hd]

/-- The same wire-relevant fields as `reqGet`, different URL, host and
extra headers. -/
def reqGetAlt : Request :=
  ⟨"GET", 0, Body.absent, goodDate, "/elsewhere", "other.example.com",
    [("X-Extra", "1")]⟩

/-- Witness for C8: `reqGet` and `reqGetAlt` agree on the four
wire-relevant fields and get identical results. -/
theorem checkHeader_deterministic_witness :
    checkHeader mgrW myKey reqGet nowW =
      checkHeader mgrW myKey reqGetAlt nowW :=
  checkHeader_deterministic mgrW myKey nowW reqGet reqGetAlt rfl rfl rfl rfl

/-- C10: `Authorize` is total, ignores the manager (hence the `Secret`)
and any request state, and returns the fixed success string for
`my_access_key` and the fixed catch-all string for every other key. -/
theorem authorize_total_and_key_only (m1 m2 : StrictSHA1Manager)
    (access : String) :
    authorize m1 access = authorize m2 access ∧
    (access = "my_access_key" →
      authorize m1 access = "All good with my access key!") ∧
    (access ≠ "my_access_key" →
      authorize m1 access = "All good with any access key!") := by
  unfold authorize
  exact ⟨rfl, fun h => by rw [if_pos h], fun h => by rw [if_neg h]⟩

/-- Witness for C10 at both concrete access keys. -/
theorem authorize_total_and_key_only_witness :
    authorize mgrW myKey = "All good with my access key!" ∧
    authorize mgrW otherKey = "All good with any access key!" :=
  ⟨(authorize_total_and_key_only mgrW mgrW myKey).2.1 rfl,
    (authorize_total_and_key_only mgrW mgrW otherKey).2.2 (by decide)⟩
